import Mathlib

/-!
Shallow embedding of the exitmap scanning harness (src/exitmap.py,
src/eventhandler.py, src/stats.py, src/modules/dnshealth.py) and proofs about
its documented behaviour.  Python strings are modelled as Lean `String`
(sequences of characters), Python `None` as `Option.none`, Python dicts keyed
by ports or circuit ids as functions into `Option`.  Wall-clock readings
(`time.time()`, `datetime.now()`) and per-attempt latencies enter the model as
explicit oracle inputs.
-/

namespace Exitmap

/-- Truthiness of an optional Python string (`if s:`): `None` and the empty
string are falsy, every other string is truthy. -/
def pyTruthy : Option String → Bool
  | none => false
  | some s => !(s == "")

/-- Python `chr.lower()` for a single ASCII character. -/
def pyCharLower (c : Char) : Char :=
  if 'A' ≤ c && c ≤ 'Z' then Char.ofNat (c.toNat + 32) else c

/-- Python `str.lower()` on ASCII strings (fingerprints and error strings in
this code base are ASCII). -/
def pyLower (s : String) : String := ⟨s.data.map pyCharLower⟩

/-- Python slicing `s[:n]` on a string. -/
def pyTake (n : Nat) (s : String) : String := ⟨s.data.take n⟩

/-- Pointwise update of a dict modelled as a function: assignment
`d[k] = v` (with `v = some _`) or removal `d.pop(k, None)` (with `v = none`). -/
def mapSet {α β : Type} [DecidableEq α] (m : α → Option β) (k : α) (v : Option β) :
    α → Option β :=
  fun x => if x = k then v else m x

/-! ## Attacher (src/eventhandler.py, class Attacher) -/

/-- Pending attach stored in `Attacher.unattached`: a partially applied
`_attach`, holding either the keyword `circuit_id=...` or the keyword
`stream_id=...` (`functools.partial(self._attach, circuit_id=...)` resp.
`functools.partial(self._attach, stream_id=...)`). -/
inductive PartialAttach : Type where
  | withCircuit (circuit_id : Option String)
  | withStream (stream_id : Option String)
deriving DecidableEq, Repr

/-- The `assert` at the head of `Attacher.prepare`: exactly one of
`circuit_id` / `stream_id` is not `None`. -/
def prepareAssert (circuit_id stream_id : Option String) : Bool :=
  (circuit_id.isSome && stream_id.isNone) || (circuit_id.isNone && stream_id.isSome)

/-- Argument pair of one `controller.attach_stream(stream_id, circuit_id)`
call issued by `Attacher._attach`. -/
structure AttachCall where
  stream_id : Option String
  circuit_id : Option String
deriving DecidableEq, Repr

/-- Completing a popped partial attach: `attach(circuit_id=circuit_id)` when
the incoming `circuit_id` is truthy, else `attach(stream_id=stream_id)`.
`functools.partial` keywords are overridden by call-time keywords and the
keyword of `_attach` not supplied at all defaults to `None`. -/
def completeAttach (p : PartialAttach) (circuit_id stream_id : Option String) :
    AttachCall :=
  if pyTruthy circuit_id then
    match p with
    | .withCircuit _ => ⟨none, circuit_id⟩
    | .withStream s0 => ⟨s0, circuit_id⟩
  else
    match p with
    | .withCircuit c0 => ⟨stream_id, c0⟩
    | .withStream _ => ⟨stream_id, none⟩

/-- Outcome of one `Attacher.prepare` call: whether the `assert` raised
`AssertionError`, the resulting `unattached` table, and the
`attach_stream` calls performed during the call. -/
structure PrepOut where
  raised : Bool
  unattached : Nat → Option PartialAttach
  attaches : List AttachCall

/-- `Attacher.prepare(port, circuit_id=..., stream_id=...)`: first the assert
(before the lock is taken), then — under `self._lock` — a single atomic
take-or-insert: `self.unattached.pop(port, None)`; a popped entry is completed
(one attach), otherwise a partial attach for the known id is stored. -/
def prepare (unattached : Nat → Option PartialAttach) (port : Nat)
    (circuit_id stream_id : Option String) : PrepOut :=
  if prepareAssert circuit_id stream_id then
    match unattached port with
    | some attach =>
        ⟨false, mapSet unattached port none,
         [completeAttach attach circuit_id stream_id]⟩
    | none =>
        if pyTruthy circuit_id then
          ⟨false, mapSet unattached port (some (.withCircuit circuit_id)), []⟩
        else
          ⟨false, mapSet unattached port (some (.withStream stream_id)), []⟩
  else
    ⟨true, unattached, []⟩

/-! ## check_finished (src/eventhandler.py, class EventHandler) -/

/-- The counters of `stats.Statistics` read by `check_finished`
(`modules_run` and `failed_streams` are never read there and are omitted). -/
structure EHStats where
  total_circuits : Nat
  failed_circuits : Nat
  successful_circuits : Nat
  finished_streams : Nat
deriving DecidableEq, Repr

/-- Shared state of `EventHandler` relevant to termination: the statistics
counters and the `already_finished` flag. -/
structure EHState where
  stats : EHStats
  already_finished : Bool
deriving DecidableEq, Repr

/-- Did all circuits either build or fail?
`(failed_circuits + successful_circuits) == total_circuits`. -/
def circsDone (s : EHStats) : Bool :=
  s.failed_circuits + s.successful_circuits == s.total_circuits

/-- Was every built circuit attached to a stream?
`finished_streams >= successful_circuits - failed_circuits`, with Python
integer subtraction (the difference may be negative). -/
def streamsDone (s : EHStats) : Bool :=
  decide ((s.successful_circuits : Int) - (s.failed_circuits : Int) ≤
    (s.finished_streams : Int))

/-- One execution of `EventHandler.check_finished`, i.e. the body guarded by
`check_finished_lock`.  Returns the new state and whether this call performed
the shutdown sequence (grace-period straggler termination, module teardown,
`sys.exit(0)`).  A call that finds `already_finished` already set merely exits
the calling thread via `sys.exit(0)` without any teardown. -/
def check_finished (st : EHState) : EHState × Bool :=
  if st.already_finished then (st, false)
  else if circsDone st.stats && streamsDone st.stats then
    ({ st with already_finished := true }, true)
  else (st, false)

/-- Atomic steps on the shared termination state: the counter updates
performed by the event thread (`update_circs`, `total_circuits +=`) and the
queue-reader thread (`finished_streams += 1`), plus `check_finished` calls
issued from either thread.  An interleaving of the two threads is a list of
such steps, each step running under the respective lock. -/
inductive EHOp : Type where
  | circBuilt
  | circFailed
  | streamFinished
  | addTotal (n : Nat)
  | check
deriving DecidableEq, Repr

/-- Effect of one step; the boolean records whether the step performed the
shutdown sequence. -/
def ehStep (st : EHState) : EHOp → EHState × Bool
  | .circBuilt =>
      ({ st with stats := { st.stats with
          successful_circuits := st.stats.successful_circuits + 1 } }, false)
  | .circFailed =>
      ({ st with stats := { st.stats with
          failed_circuits := st.stats.failed_circuits + 1 } }, false)
  | .streamFinished =>
      ({ st with stats := { st.stats with
          finished_streams := st.stats.finished_streams + 1 } }, false)
  | .addTotal n =>
      ({ st with stats := { st.stats with
          total_circuits := st.stats.total_circuits + n } }, false)
  | .check => check_finished st

/-- Number of steps of an interleaving that performed the shutdown
sequence. -/
def shutdownCount (st : EHState) : List EHOp → Nat
  | [] => 0
  | op :: ops =>
      (if (ehStep st op).2 then 1 else 0) + shutdownCount (ehStep st op).1 ops

theorem ehStep_preserves_finished (st : EHState) (op : EHOp)
    (h : st.already_finished = true) :
    (ehStep st op).1.already_finished = true := by
  cases op <;> simp [ehStep, check_finished, h]

theorem shutdownCount_zero_of_finished (st : EHState) (ops : List EHOp)
    (h : st.already_finished = true) : shutdownCount st ops = 0 := by
  induction ops generalizing st with
  | nil => rfl
  | cons op ops ih =>
      have h1 := ehStep_preserves_finished st op h
      have h2 : (ehStep st op).2 = false := by
        cases op <;> simp [ehStep, check_finished, h]
      simp [shutdownCount, h2, ih _ h1]

theorem shutdownCount_le_one (st : EHState) (ops : List EHOp) :
    shutdownCount st ops ≤ 1 := by
  induction ops generalizing st with
  | nil => simp [shutdownCount]
  | cons op ops ih =>
      by_cases hf : st.already_finished = true
      · simp [shutdownCount_zero_of_finished st (op :: ops) hf]
      · rcases hb : (ehStep st op).2 with _ | _
        · simpa [shutdownCount, hb] using ih (ehStep st op).1
        · have hfin : (ehStep st op).1.already_finished = true := by
            cases op <;> simp_all [ehStep, check_finished] <;>
              split at hb <;> simp_all [check_finished]
          simp [shutdownCount, hb,
            shutdownCount_zero_of_finished _ ops hfin]

/-! ## Statistics and the circuit registry (src/stats.py) -/

/-- Python `chr.upper()` for a single ASCII character. -/
def pyCharUpper (c : Char) : Char :=
  if 'a' ≤ c && c ≤ 'z' then Char.ofNat (c.toNat - 32) else c

/-- Python `str.upper()` on ASCII strings. -/
def pyUpper (s : String) : String := ⟨s.data.map pyCharUpper⟩

/-- `CIRCUIT_FAILURE_MAP` from `stats.py`: raw Tor reason, friendly JSON key,
error message. -/
def CIRCUIT_FAILURE_MAP : List (String × String × String) := [
  ("TIMEOUT", "circuit_timeout", "Tor Circuit Error: Construction timed out"),
  ("CONNECTFAILED", "relay_connect_failed",
   "Tor Circuit Error: Could not connect to relay"),
  ("NOPATH", "circuit_no_path", "Tor Circuit Error: No path available"),
  ("RESOURCELIMIT", "relay_resource_limit", "Tor Circuit Error: Relay at capacity"),
  ("HIBERNATING", "relay_hibernating", "Tor Circuit Error: Relay is hibernating"),
  ("DESTROYED", "circuit_destroyed", "Tor Circuit Error: Circuit was closed"),
  ("FINISHED", "circuit_finished", "Tor Circuit Error: Circuit finished normally"),
  ("OR_CONN_CLOSED", "relay_connection_closed",
   "Tor Circuit Error: Connection to relay closed"),
  ("CHANNEL_CLOSED", "channel_closed",
   "Tor Circuit Error: Relay channel closed unexpectedly"),
  ("IOERROR", "io_error", "Tor Circuit Error: I/O error on connection"),
  ("TORPROTOCOL", "tor_protocol_error", "Tor Circuit Error: Protocol violation"),
  ("INTERNAL", "tor_internal_error", "Tor Circuit Error: Internal error"),
  ("REQUESTED", "circuit_requested", "Tor Circuit Error: Circuit close requested"),
  ("NOSUCHSERVICE", "no_such_service", "Tor Circuit Error: Hidden service not found"),
  ("MEASUREMENT_EXPIRED", "measurement_expired",
   "Tor Circuit Error: Measurement expired"),
  ("GUARD_LIMIT_REACHED", "guard_limit",
   "Tor Circuit Error: Guard circuit limit reached")]

/-- `get_circuit_failure_info(reason)` from `stats.py`: uppercase the raw
reason (falsy reason becomes `UNKNOWN`), look it up in the map, fall back to
`circuit_failed`. -/
def get_circuit_failure_info (reason : Option String) : String × String :=
  let reason_str := if pyTruthy reason then pyUpper (reason.getD "") else "UNKNOWN"
  match CIRCUIT_FAILURE_MAP.find? (fun e => e.1 == reason_str) with
  | some e => e.2
  | none =>
      ("circuit_failed", "Tor Circuit Error: Unknown failure (" ++ reason_str ++ ")")

/-- Registry entry of `pending_circuits` (wall-clock `timestamp` omitted). -/
structure CircInfo where
  first_hop : String
  exit_relay : String
deriving DecidableEq, Repr

/-- Entry of `failed_circuit_relays` (wall-clock `timestamp` omitted;
`unresolved` is present, and `True`, only for unresolved failures). -/
structure FailEntry where
  reason_key : String
  error : String
  tor_reason : String
  first_hop : Option String
  unresolved : Bool
deriving DecidableEq, Repr

/-- State of a `stats.Statistics` object (wall-clock `start_time` omitted;
`modules_run` and `failed_streams` are not touched by the claims and elided). -/
structure StatsState where
  total_circuits : Nat
  failed_circuits : Nat
  successful_circuits : Nat
  finished_streams : Nat
  failed_circuit_relays : String → Option FailEntry
  pending_circuits : String → Option CircInfo

/-- A fresh `Statistics()` object. -/
def initStats : StatsState :=
  ⟨0, 0, 0, 0, fun _ => none, fun _ => none⟩

/-- `Statistics.register_circuit` (the circuit id is already a string in the
model, mirroring `str(circuit_id)`). -/
def register_circuit (st : StatsState) (circuit_id first_hop exit_relay : String) :
    StatsState :=
  { st with pending_circuits :=
      mapSet st.pending_circuits circuit_id (some ⟨first_hop, exit_relay⟩) }

/-- `Statistics.resolve_circuit`: `(first_hop, exit_relay)` of the registered
circuit, or `(None, None)`. -/
def resolve_circuit (st : StatsState) (circuit_id : String) :
    Option String × Option String :=
  match st.pending_circuits circuit_id with
  | some info => (some info.first_hop, some info.exit_relay)
  | none => (none, none)

/-- `Statistics.complete_circuit`: `pending_circuits.pop(cid, None)`. -/
def complete_circuit (st : StatsState) (circuit_id : String) : StatsState :=
  { st with pending_circuits := mapSet st.pending_circuits circuit_id none }

/-- `Statistics.record_immediate_failure`. -/
def record_immediate_failure (st : StatsState)
    (first_hop exit_relay error_str : String) : StatsState :=
  { st with
    failed_circuits := st.failed_circuits + 1,
    failed_circuit_relays := mapSet st.failed_circuit_relays exit_relay
      (some ⟨"circuit_creation_failed",
             "Tor Circuit Error: Failed to create circuit (" ++ error_str ++ ")",
             "CREATION_FAILED", some first_hop, false⟩) }

/-- Status of a stem circuit event as far as `update_circs` distinguishes it:
`FAILED`, `BUILT`, or any other transient status. -/
inductive TorCircStatus : Type where
  | FAILED
  | BUILT
  | other
deriving DecidableEq, Repr

/-- A stem `CircuitEvent` as consumed by `update_circs`: circuit id (as a
string), status, and the optional raw failure reason. -/
structure CircEvent where
  id : String
  status : TorCircStatus
  reason : Option String
deriving DecidableEq, Repr

/-- A call into the circuit registry made by `update_circs`. -/
inductive RegCall : Type where
  | resolve (cid : String)
  | complete (cid : String)
deriving DecidableEq, Repr

/-- `Statistics.update_circs(circ_event)`; additionally returns the trace of
`resolve_circuit` / `complete_circuit` calls the execution makes. -/
def update_circs (st : StatsState) (ev : CircEvent) : StatsState × List RegCall :=
  let cid := ev.id
  match ev.status with
  | .FAILED =>
      let st1 := { st with failed_circuits := st.failed_circuits + 1 }
      let fh_ex := resolve_circuit st1 cid
      let rk := get_circuit_failure_info ev.reason
      let tor_reason := if pyTruthy ev.reason then ev.reason.getD "" else "UNKNOWN"
      let resolvedEntry : FailEntry := ⟨rk.1, rk.2, tor_reason, fh_ex.1, false⟩
      let unresolvedEntry : FailEntry := ⟨rk.1, rk.2, tor_reason, none, true⟩
      let st2 :=
        if pyTruthy fh_ex.2 then
          { st1 with failed_circuit_relays :=
              (mapSet st1.failed_circuit_relays (fh_ex.2.getD "") (some resolvedEntry)) }
        else
          { st1 with failed_circuit_relays :=
              (mapSet st1.failed_circuit_relays ("UNRESOLVED_" ++ cid) (some unresolvedEntry)) }
      (complete_circuit st2 cid, [.resolve cid, .complete cid])
  | .BUILT =>
      let st1 := { st with successful_circuits := st.successful_circuits + 1 }
      (complete_circuit st1 cid, [.complete cid])
  | .other => (st, [])

/-- The operations through which the orchestrator and the event loop mutate a
`Statistics` object over a run. -/
inductive StatsOp : Type where
  | register (circuit_id first_hop exit_relay : String)
  | immediate (first_hop exit_relay error_str : String)
  | event (ev : CircEvent)
deriving DecidableEq, Repr

/-- Effect of one statistics operation. -/
def statsStep (st : StatsState) : StatsOp → StatsState
  | .register cid fh ex => register_circuit st cid fh ex
  | .immediate fh ex e => record_immediate_failure st fh ex e
  | .event ev => (update_circs st ev).1

/-- Replay a sequence of statistics operations. -/
def statsRun (st : StatsState) : List StatsOp → StatsState
  | [] => st
  | op :: ops => statsRun (statsStep st op) ops

/-- Specification-side bookkeeping: is `cid` registered and not yet terminally
transitioned after processing the operations, starting from registration
status `b`?  A `register` for `cid` activates it; a `FAILED` or `BUILT` event
for `cid` deactivates it. -/
def activeFrom (b : Bool) (cid : String) : List StatsOp → Bool
  | [] => b
  | .register cid2 _ _ :: ops => activeFrom (if cid2 = cid then true else b) cid ops
  | .immediate _ _ _ :: ops => activeFrom b cid ops
  | .event ev :: ops =>
      activeFrom
        (if ev.id = cid ∧ (ev.status = .FAILED ∨ ev.status = .BUILT) then false else b)
        cid ops

/-- Does the operation sequence ever register `cid`? -/
def registersCid (cid : String) : List StatsOp → Bool
  | [] => false
  | .register cid2 _ _ :: ops => cid2 == cid || registersCid cid ops
  | _ :: ops => registersCid cid ops

theorem mapSet_same {α β : Type} [DecidableEq α] (m : α → Option β) (k : α)
    (v : Option β) : mapSet m k v k = v := by
  simp [mapSet]

theorem mapSet_other {α β : Type} [DecidableEq α] (m : α → Option β) (k x : α)
    (v : Option β) (h : x ≠ k) : mapSet m k v x = m x := by
  simp [mapSet, h]

/-- Terminal events pop `ev.id` from the registry and leave the rest of it
unchanged; other events do not touch it. -/
theorem update_circs_pending (st : StatsState) (ev : CircEvent) :
    (update_circs st ev).1.pending_circuits =
      (if ev.status = .other then st.pending_circuits
       else mapSet st.pending_circuits ev.id none) := by
  rcases ev with ⟨id, status, reason⟩
  cases status
  · rw [if_neg (by simp)]
    simp only [update_circs, complete_circuit]
    split <;> rfl
  · rw [if_neg (by simp)]
    rfl
  · rw [if_pos rfl]
    rfl

theorem statsStep_pending (st : StatsState) (op : StatsOp) (cid : String) :
    ((statsStep st op).pending_circuits cid).isSome =
      (match op with
       | .register cid2 _ _ =>
           if cid2 = cid then true else (st.pending_circuits cid).isSome
       | .immediate _ _ _ => (st.pending_circuits cid).isSome
       | .event ev =>
           if ev.id = cid ∧ (ev.status = .FAILED ∨ ev.status = .BUILT) then false
           else (st.pending_circuits cid).isSome) := by
  rcases op with ⟨cid2, fh, ex⟩ | ⟨fh, ex, e⟩ | ev
  · show (mapSet st.pending_circuits cid2 (some ⟨fh, ex⟩) cid).isSome =
      if cid2 = cid then true else (st.pending_circuits cid).isSome
    by_cases h : cid2 = cid
    · subst h; rw [mapSet_same, if_pos rfl]; rfl
    · rw [mapSet_other _ _ _ _ (fun hh => h hh.symm), if_neg h]
  · rfl
  · show (((update_circs st ev).1.pending_circuits) cid).isSome =
      if ev.id = cid ∧ (ev.status = .FAILED ∨ ev.status = .BUILT) then false
      else (st.pending_circuits cid).isSome
    rw [update_circs_pending]
    rcases ev with ⟨id, status, reason⟩
    cases status
    · rw [if_neg (by simp)]
      by_cases h : id = cid
      · subst h; rw [mapSet_same]; simp
      · rw [mapSet_other _ _ _ _ (fun hh => h hh.symm)]
        simp [h]
    · rw [if_neg (by simp)]
      by_cases h : id = cid
      · subst h; rw [mapSet_same]; simp
      · rw [mapSet_other _ _ _ _ (fun hh => h hh.symm)]
        simp [h]
    · rw [if_pos rfl]
      simp

/-- Presence in `pending_circuits` exactly matches the registered-and-pending
bookkeeping, for every starting state that matches the starting flag. -/
theorem statsRun_pending (ops : List StatsOp) (st : StatsState) (cid : String)
    (b : Bool) (hb : (st.pending_circuits cid).isSome = b) :
    ((statsRun st ops).pending_circuits cid).isSome = activeFrom b cid ops := by
  induction ops generalizing st b with
  | nil => simpa [statsRun, activeFrom] using hb
  | cons op ops ih =>
      rcases op with ⟨cid2, fh, ex⟩ | ⟨fh, ex, e⟩ | ev
      · show ((statsRun (statsStep st (.register cid2 fh ex)) ops).pending_circuits
            cid).isSome = activeFrom (if cid2 = cid then true else b) cid ops
        exact ih _ _ (by rw [statsStep_pending st (.register cid2 fh ex) cid, hb])
      · show ((statsRun (statsStep st (.immediate fh ex e)) ops).pending_circuits
            cid).isSome = activeFrom b cid ops
        exact ih _ _ (by rw [statsStep_pending st (.immediate fh ex e) cid, hb])
      · show ((statsRun (statsStep st (.event ev)) ops).pending_circuits
            cid).isSome = activeFrom
              (if ev.id = cid ∧ (ev.status = .FAILED ∨ ev.status = .BUILT) then false
               else b) cid ops
        exact ih _ _ (by rw [statsStep_pending st (.event ev) cid, hb])

theorem statsRun_not_registered (ops : List StatsOp) (st : StatsState) (cid : String)
    (h : registersCid cid ops = false) (hst : st.pending_circuits cid = none) :
    (statsRun st ops).pending_circuits cid = none := by
  induction ops generalizing st with
  | nil => simpa [statsRun]
  | cons op ops ih =>
      rcases op with ⟨cid2, fh, ex⟩ | ⟨fh, ex, e⟩ | ev
      · have h2 : (cid2 == cid) = false ∧ registersCid cid ops = false := by
          have : (cid2 == cid || registersCid cid ops) = false := h
          simpa using this
        refine ih _ h2.2 ?_
        show mapSet st.pending_circuits cid2 (some ⟨fh, ex⟩) cid = none
        have hne : cid ≠ cid2 := by
          intro hh
          subst hh
          rw [beq_self_eq_true] at h2
          exact absurd h2.1 (by simp)
        rw [mapSet_other _ _ _ _ hne]
        exact hst
      · exact ih _ h hst
      · refine ih _ h ?_
        show ((update_circs st ev).1.pending_circuits) cid = none
        rw [update_circs_pending]
        rcases ev with ⟨id, status, reason⟩
        cases status
        · rw [if_neg (by simp)]
          by_cases hc : cid = id
          · subst hc; rw [mapSet_same]
          · rw [mapSet_other _ _ _ _ hc]; exact hst
        · rw [if_neg (by simp)]
          by_cases hc : cid = id
          · subst hc; rw [mapSet_same]
          · rw [mapSet_other _ _ _ _ hc]; exact hst
        · rw [if_pos rfl]; exact hst

/-! ## Orchestrator entry point (src/exitmap.py) -/

/-- Message of the `ExitSelectionError` raised by `run_module` when the exit
selection is empty. -/
def exitSelectionMsg (count : Nat) : String :=
  "Exit selection yielded " ++ toString count ++ " exits but need at least one."

/-- Selection outcome of one `run_module` call. -/
structure RunModuleOut where
  added_total : Nat
  selection_error : Option String

/-- The selection-relevant slice of `run_module` (`exitmap.py`): with
`count` selected exit relays it adds `count * redundancy` to
`stats.total_circuits` and raises `ExitSelectionError` when `count < 1`.
The parts that only run on success (event handler registration, circuit
creation) are outside this claim's scope. -/
def run_module (count redundancy : Nat) : RunModuleOut :=
  ⟨count * redundancy, if count < 1 then some (exitSelectionMsg count) else none⟩

/-- The per-module loop of `main`: each `run_module` call is wrapped in
`try/except error.ExitSelectionError`, whose handler logs
`"Failed to run because : <msg>"` via `log.error` and continues with the next
module.  Returns the list of user-facing error lines logged. -/
def mainModuleLoop (redundancy : Nat) (counts : List Nat) : List String :=
  counts.filterMap (fun c =>
    match (run_module c redundancy).selection_error with
    | some msg => some ("Failed to run because : " ++ msg)
    | none => none)

/-- `main` once the start-up checks passed: run the module loop, then
`return 0` (the literal last statement of `main`).  Result: the logged
user-facing error lines and the process exit code. -/
def mainRun (redundancy : Nat) (counts : List Nat) : List String × Nat :=
  (mainModuleLoop redundancy counts, 0)

/-! ## DNS-health probe (src/modules/dnshealth.py) -/

/-- `_SOCKS_ERROR_MAP` from `dnshealth.py`. -/
def SOCKS_ERROR_MAP : List (Nat × String) := [
  (1, "socks_general_failure"),
  (2, "socks_ruleset_blocked"),
  (3, "network_unreachable"),
  (4, "dns_fail"),
  (5, "connection_refused"),
  (6, "ttl_expired"),
  (7, "socks_command_unsupported"),
  (8, "socks_address_unsupported")]

/-- `_SOCKS_ERROR_MESSAGES` from `dnshealth.py`. -/
def SOCKS_ERROR_MESSAGES : List (Nat × String) := [
  (1, "SOCKS 1: General failure"),
  (2, "SOCKS 2: Not allowed by ruleset"),
  (3, "SOCKS 3: Network unreachable"),
  (4, "SOCKS 4: Domain not found (NXDOMAIN)"),
  (5, "SOCKS 5: Connection refused"),
  (6, "SOCKS 6: TTL expired"),
  (7, "SOCKS 7: Command not supported"),
  (8, "SOCKS 8: Address type not supported")]

/-- Python regex class `\s` on the ASCII range (the stem error strings the
regex is applied to are ASCII). -/
def pyIsSpace (c : Char) : Bool :=
  c == ' ' || c == '\t' || c == '\n' || c == '\r' ||
    c == Char.ofNat 11 || c == Char.ofNat 12

/-- Case-insensitive literal match (`re.IGNORECASE`): consume the pattern
characters, returning the rest of the input. -/
def stripCaseFold : List Char → List Char → Option (List Char)
  | [], cs => some cs
  | _ :: _, [] => none
  | p :: ps, c :: cs =>
      if pyCharLower c == pyCharLower p then stripCaseFold ps cs else none

/-- One anchored match of `(?:error\s*|0x0)([1-8])` at the given position,
returning the captured digit.  The first alternative is preferred; `\s*` is
greedy, and since it is followed by a character class disjoint from `\s`,
backtracking cannot produce further matches. -/
def socksCodeAt (cs : List Char) : Option Nat :=
  let alt1 :=
    match stripCaseFold ['e', 'r', 'r', 'o', 'r'] cs with
    | some rest =>
        match rest.dropWhile pyIsSpace with
        | d :: _ => if '1' ≤ d && d ≤ '8' then some (d.toNat - '0'.toNat) else none
        | [] => none
    | none => none
  match alt1 with
  | some k => some k
  | none =>
      match stripCaseFold ['0', 'x', '0'] cs with
      | some (d :: _) => if '1' ≤ d && d ≤ '8' then some (d.toNat - '0'.toNat) else none
      | _ => none

/-- Leftmost match of the compiled `_SOCKS_ERROR_RE` (`re.search`). -/
def socksCodeSearch : List Char → Option Nat
  | [] => none
  | c :: cs =>
      match socksCodeAt (c :: cs) with
      | some k => some k
      | none => socksCodeSearch cs

/-- `_parse_socks_error_code` from `dnshealth.py`: regex search plus the
(redundant) `1 <= code <= 8` bound check. -/
def parse_socks_error_code (s : String) : Option Nat :=
  match socksCodeSearch s.data with
  | some code => if 1 ≤ code && code ≤ 8 then some code else none
  | none => none

/-- Result record built by `_make_result` (wall-clock `timestamp`, the global
`run_id`, and the descriptor-derived display fields `exit_nickname`,
`exit_address`, `tor_metrics_url`, `exit_fingerprint` are copied verbatim
from inputs and elided here). -/
structure ProbeResult where
  query_domain : String
  expected_ip : Option String
  mode : String
  first_hop : Option String
  status : String
  resolved_ip : Option String
  latency_ms : Option Nat
  error : Option String
  attempt : Nat
deriving DecidableEq, Repr

/-- `_make_result` from `dnshealth.py`; `mode` is `"wildcard"` exactly when
`expected_ip` is truthy. -/
def make_result (domain : String) (expected : Option String) (status : String)
    (resolved : Option String) (latency : Option Nat) (error_msg : Option String)
    (attempt : Nat) (first_hop : Option String) : ProbeResult :=
  ⟨domain, expected, if pyTruthy expected then "wildcard" else "nxdomain",
   first_hop, status, resolved, latency, error_msg, attempt⟩

/-- `first_hop_info`: `"via <fp>"` when a first hop is known, else the empty
string. -/
def firstHopInfo (first_hop : Option String) : String :=
  if pyTruthy first_hop then "via " ++ first_hop.getD "" else ""

/-- Python `"%s %s" % (base, info) if info else base`. -/
def withFirstHop (base info : String) : String :=
  if info == "" then base else base ++ " " ++ info

/-- `_SOCKS_ERROR_MAP.get(err_code, "socks_error")` (`err_code` may be
`None`). -/
def socksStatusOf (code : Option Nat) : String :=
  match code with
  | some k => (((SOCKS_ERROR_MAP.find? (fun e => e.1 == k)).map Prod.snd).getD "socks_error")
  | none => "socks_error"

/-- `_SOCKS_ERROR_MESSAGES.get(err_code, "SOCKS %s: Unknown error" % err_code)`
(`%s` renders `None` as the string `None`). -/
def socksBaseMsg (code : Option Nat) : String :=
  match code with
  | some k =>
      (((SOCKS_ERROR_MESSAGES.find? (fun e => e.1 == k)).map Prod.snd).getD
        ("SOCKS " ++ toString k ++ ": Unknown error"))
  | none => "SOCKS None: Unknown error"

/-- Oracle for one loop iteration of `resolve_with_retry`: what
`torsocks.torsocket().resolve(domain)` did, together with the elapsed
milliseconds that `_elapsed_ms(start)` reads for this attempt. -/
inductive AttemptOutcome : Type where
  | resolved (ip : String) (latency : Nat)
  | socksErr (err_str : String) (latency : Nat)
  | timedOut (latency : Nat)
  | eofErr (latency : Nat)
  | socketGone (latency : Nat)
  | connRefused (latency : Nat)
  | otherExc (type_name msg : String) (latency : Nat)
deriving DecidableEq, Repr

/-- Environment of `resolve_with_retry`: the keyword arguments plus the
module-level configuration it reads (`QUERY_TIMEOUT`, and the exit
fingerprint whose first 8 characters appear in two error messages). -/
structure ProbeEnv where
  expected_ip : Option String
  first_hop : Option String
  fpShort : String
  query_timeout : Nat
deriving DecidableEq, Repr

/-- Outcome of one iteration body: either `return result` (terminal) or fall
through to the next attempt carrying the mutated result record. -/
inductive IterOut : Type where
  | ret (r : ProbeResult)
  | retry (r : ProbeResult)
deriving DecidableEq, Repr

/-- Body of one `for attempt in range(1, retries + 1)` iteration of
`resolve_with_retry`: sets `result["attempt"]`, performs the resolve and the
`try/except` dispatch exactly as in `dnshealth.py`. -/
def probeAttempt (env : ProbeEnv) (attempt : Nat) (oc : AttemptOutcome)
    (result : ProbeResult) : IterOut :=
  let r0 := { result with attempt := attempt }
  let info := firstHopInfo env.first_hop
  match oc with
  | .resolved ip lat =>
      let r1 := { r0 with resolved_ip := some ip, latency_ms := some lat }
      if pyTruthy env.expected_ip then
        if ip == env.expected_ip.getD "" then
          .ret { r1 with status := "success" }
        else
          let wrongMsg := "Expected " ++ env.expected_ip.getD "" ++ ", got " ++ ip
          .ret { r1 with status := "wrong_ip", error := some wrongMsg }
      else
        .ret { r1 with status := "success" }
  | .socksErr es lat =>
      let r1 := { r0 with latency_ms := some lat }
      match parse_socks_error_code es with
      | some 4 =>
          if pyTruthy env.expected_ip then
            let nxMsg := "SOCKS 4: Domain not found (NXDOMAIN)"
            .ret { r1 with status := "dns_fail", error := some nxMsg }
          else
            .ret { r1 with status := "success", resolved_ip := some "NXDOMAIN" }
      | code =>
          let em := withFirstHop (socksBaseMsg code) info
          .retry { r1 with status := socksStatusOf code, error := some em, latency_ms := some lat }
  | .timedOut lat =>
      let em := withFirstHop ("Timeout after " ++ toString env.query_timeout ++ "s") info
      .retry { r0 with status := "timeout", error := some em, latency_ms := some lat }
  | .eofErr lat =>
      let em := withFirstHop "Connection closed unexpectedly" info
      .retry { r0 with status := "eof_error", error := some em, latency_ms := some lat }
  | .socketGone lat =>
      let base := "Lost connection to Tor (socket gone, process may have crashed) while testing exit " ++ env.fpShort
      let em := withFirstHop base info
      .retry { r0 with status := "tor_connection_lost", error := some em, latency_ms := some lat }
  | .connRefused lat =>
      let base := "Tor refused connection (process may be restarting) while testing exit " ++ env.fpShort
      let em := withFirstHop base info
      .retry { r0 with status := "tor_connection_refused", error := some em, latency_ms := some lat }
  | .otherExc t m lat =>
      let em := if m == "" then t else t ++ ": " ++ m
      .retry { r0 with status := "exception", error := some em, latency_ms := some lat }

/-- The retry loop of `resolve_with_retry`, from attempt number `attempt` up
to `retries`.  Besides the final result record it returns the number of
attempts actually executed (a terminal attempt stops the loop; the
`time.sleep(RETRY_DELAY)` between attempts has no modelled effect). -/
def resolveLoop (env : ProbeEnv) (oracle : Nat → AttemptOutcome) (retries : Nat)
    (attempt : Nat) (result : ProbeResult) : ProbeResult × Nat :=
  if h : retries < attempt then (result, 0)
  else
    match probeAttempt env attempt (oracle attempt) result with
    | .ret r => (r, 1)
    | .retry r =>
        let rest := resolveLoop env oracle retries (attempt + 1) r
        (rest.1, rest.2 + 1)
termination_by retries + 1 - attempt
decreasing_by omega

/-- `resolve_with_retry(exit_desc, domain, expected_ip, retries, first_hop)`:
start from the `_make_result` defaults and run the attempt loop from
attempt 1. -/
def resolve_with_retry (env : ProbeEnv) (domain : String)
    (oracle : Nat → AttemptOutcome) (retries : Nat) : ProbeResult × Nat :=
  resolveLoop env oracle retries 1
    (make_result domain env.expected_ip "unknown" none none none 0 env.first_hop)

/-- Oracle for one `do_validation` call: either `resolve_with_retry` returned
a result, or the SIGALRM watchdog raised `HardTimeoutError` after
`HARD_TIMEOUT` seconds, or some other exception escaped. -/
inductive ValidationOutcome : Type where
  | completed (r : ProbeResult)
  | interrupted
  | excRaised (type_name msg : String)
deriving DecidableEq, Repr

/-- `do_validation` from `dnshealth.py` (the `_status_counts` update and the
JSON write consume the returned record unchanged).  `hardTimeoutS` and
`maxRetries` are the module configuration values `HARD_TIMEOUT` and
`MAX_RETRIES`. -/
def do_validation (hardTimeoutS maxRetries : Nat) (domain : String)
    (expected first_hop : Option String) (oc : ValidationOutcome) : ProbeResult :=
  match oc with
  | .completed r => r
  | .interrupted =>
      make_result domain expected "hard_timeout" none (some (hardTimeoutS * 1000))
        (some (withFirstHop ("Hard timeout after " ++ toString hardTimeoutS ++ "s")
          (firstHopInfo first_hop)))
        maxRetries first_hop
  | .excRaised t m =>
      make_result domain expected "exception" none none
        (some (if m == "" then t else t ++ ": " ++ m)) 0 first_hop

/-- `generate_unique_query(fingerprint, base_domain)` from `dnshealth.py`.
`uuid.uuid4().hex` — a fresh 32-character lowercase hexadecimal string — is
passed in as the oracle input `uuidHex`. -/
def generate_unique_query (uuidHex fingerprint base_domain : String) : String :=
  uuidHex ++ "." ++ pyLower (pyTake 8 fingerprint) ++ "." ++ base_domain

/-- Decimal digit characters. -/
def digitChars : List Char :=
  ['9', '8', '7', '6', '5', '4', '3', '2', '1', '0'].reverse

/-- Lowercase hexadecimal letter characters. -/
def hexLowerLetters : List Char := ['f', 'e', 'd', 'c', 'b', 'a'].reverse

/-- Uppercase hexadecimal letter characters. -/
def hexUpperLetters : List Char := ['F', 'E', 'D', 'C', 'B', 'A'].reverse

/-- Lowercase hexadecimal digits. -/
def lowerHexChars : List Char := digitChars ++ hexLowerLetters

/-- Hexadecimal digits (either case). -/
def hexChars : List Char := lowerHexChars ++ hexUpperLetters

def isHexDigitChar (c : Char) : Bool := decide (c ∈ hexChars)

def isLowerHexChar (c : Char) : Bool := decide (c ∈ lowerHexChars)

/-! ## Supporting lemmas -/

theorem pyTruthy_some_of_ne {s : String} (h : s ≠ "") : pyTruthy (some s) = true := by
  simp [pyTruthy, h]

theorem string_eq_of_data_eq {a b : String} (h : a.data = b.data) : a = b := by
  cases a
  cases b
  exact congrArg String.mk h

/-- The JSON key chosen by the failure map, for any uppercased reason string,
is one of the sixteen mapped tokens or the fallback. -/
theorem failure_info_key_mem (reason_str : String) :
    (match CIRCUIT_FAILURE_MAP.find?
        (fun e : String × String × String => e.1 == reason_str) with
     | some e => e.2
     | none =>
         ("circuit_failed",
          "Tor Circuit Error: Unknown failure (" ++ reason_str ++ ")")).1 ∈
      ["circuit_timeout", "relay_connect_failed", "circuit_no_path",
       "relay_resource_limit", "relay_hibernating", "circuit_destroyed",
       "circuit_finished", "relay_connection_closed", "channel_closed",
       "io_error", "tor_protocol_error", "tor_internal_error",
       "circuit_requested", "no_such_service", "measurement_expired",
       "guard_limit", "circuit_failed"] := by
  cases hf : CIRCUIT_FAILURE_MAP.find?
      (fun e : String × String × String => e.1 == reason_str) with
  | none =>
      show "circuit_failed" ∈ _
      decide
  | some ent =>
      show ent.2.1 ∈ _
      have hm : ent ∈ CIRCUIT_FAILURE_MAP := List.mem_of_find?_eq_some hf
      clear hf
      fin_cases hm <;> decide

/-- Unfolding of `update_circs` on a `FAILED` event whose circuit is in the
registry with a truthy exit fingerprint. -/
theorem update_circs_failed_resolved (st : StatsState) (cid : String)
    (r : Option String) (info : CircInfo)
    (hp : st.pending_circuits cid = some info) (her : info.exit_relay ≠ "") :
    (update_circs st ⟨cid, .FAILED, r⟩).1.failed_circuit_relays info.exit_relay =
      some ⟨(get_circuit_failure_info r).1, (get_circuit_failure_info r).2,
            if pyTruthy r then r.getD "" else "UNKNOWN", some info.first_hop,
            false⟩ := by
  have hres : resolve_circuit { st with failed_circuits := st.failed_circuits + 1 } cid =
      (some info.first_hop, some info.exit_relay) := by
    show (match st.pending_circuits cid with
          | some i => (some i.first_hop, some i.exit_relay)
          | none => (none, none)) = _
    rw [hp]
  simp only [update_circs, hres]
  rw [if_pos (pyTruthy_some_of_ne her)]
  show mapSet _ ((some info.exit_relay).getD "") _ info.exit_relay = _
  show mapSet _ info.exit_relay _ info.exit_relay = _
  rw [mapSet_same]

/-- Unfolding of `update_circs` on a `FAILED` event whose circuit is not in
the registry. -/
theorem update_circs_failed_unresolved (st : StatsState) (cid : String)
    (r : Option String) (hp : st.pending_circuits cid = none) :
    (update_circs st ⟨cid, .FAILED, r⟩).1.failed_circuit_relays
        ("UNRESOLVED_" ++ cid) =
      some ⟨(get_circuit_failure_info r).1, (get_circuit_failure_info r).2,
            if pyTruthy r then r.getD "" else "UNKNOWN", none, true⟩ := by
  have hres : resolve_circuit { st with failed_circuits := st.failed_circuits + 1 } cid =
      (none, none) := by
    show (match st.pending_circuits cid with
          | some i => (some i.first_hop, some i.exit_relay)
          | none => (none, none)) = _
    rw [hp]
  simp only [update_circs, hres]
  rw [if_neg (by simp [pyTruthy])]
  show mapSet _ ("UNRESOLVED_" ++ cid) _ ("UNRESOLVED_" ++ cid) = _
  rw [mapSet_same]

theorem hex_pyCharLower {c : Char} (h : isHexDigitChar c = true) :
    isLowerHexChar (pyCharLower c) = true := by
  have hm : c ∈ hexChars := of_decide_eq_true h
  fin_cases hm <;> decide

/-! ## Claim theorems -/

/-- C1: the shutdown sequence of `check_finished` is performed exactly when
the call finds `already_finished` unset, `circs_done` and `streams_done`; and
over every interleaving of counter updates and `check_finished` calls from
the event thread and the queue-reader thread (each step atomic under the
respective lock) the shutdown sequence executes at most once. -/
theorem check_finished_fires_once :
    (∀ st : EHState, (check_finished st).2 =
      (!st.already_finished && (circsDone st.stats && streamsDone st.stats))) ∧
    (∀ (st : EHState) (ops : List EHOp), shutdownCount st ops ≤ 1) := by
  constructor
  · intro st
    rcases st with ⟨s, af⟩
    cases af <;> cases h : circsDone s && streamsDone s <;>
      simp [check_finished, h]
  · exact shutdownCount_le_one

/-- C2: against a port with an empty slot, a circuit-only `prepare` followed
by a stream-only `prepare` (or the two in the other order) first stores a
pending entry, then pops it and performs exactly one attach of that stream to
that circuit, leaving the slot empty; `prepare` calls against other ports
never disturb the slot (each call is one critical section under the mutex). -/
theorem attacher_matched_pair (u : Nat → Option PartialAttach) (p : Nat)
    (C S : String) (hp : u p = none) (hC : C ≠ "") (hS : S ≠ "") :
    ((prepare u p (some C) none).raised = false ∧
     (prepare u p (some C) none).unattached p = some (.withCircuit (some C)) ∧
     (prepare u p (some C) none).attaches = [] ∧
     (prepare (prepare u p (some C) none).unattached p none (some S)).raised = false ∧
     (prepare (prepare u p (some C) none).unattached p none (some S)).attaches =
       [⟨some S, some C⟩] ∧
     (prepare (prepare u p (some C) none).unattached p none (some S)).unattached p =
       none) ∧
    ((prepare u p none (some S)).raised = false ∧
     (prepare u p none (some S)).unattached p = some (.withStream (some S)) ∧
     (prepare u p none (some S)).attaches = [] ∧
     (prepare (prepare u p none (some S)).unattached p (some C) none).raised = false ∧
     (prepare (prepare u p none (some S)).unattached p (some C) none).attaches =
       [⟨some S, some C⟩] ∧
     (prepare (prepare u p none (some S)).unattached p (some C) none).unattached p =
       none) ∧
    (∀ (q : Nat) (cid sid : Option String), q ≠ p →
      (prepare u q cid sid).unattached p = u p) := by
  have hCt : pyTruthy (some C) = true := pyTruthy_some_of_ne hC
  have hSt : pyTruthy (some S) = true := pyTruthy_some_of_ne hS
  have hSf : pyTruthy (none : Option String) = false := rfl
  refine ⟨?_, ?_, ?_⟩
  · have e1 : prepare u p (some C) none =
        ⟨false, mapSet u p (some (.withCircuit (some C))), []⟩ := by
      simp [prepare, prepareAssert, hp, hCt]
    rw [e1]
    have e2 : prepare (mapSet u p (some (.withCircuit (some C)))) p none (some S) =
        ⟨false, mapSet (mapSet u p (some (.withCircuit (some C)))) p none,
         [completeAttach (.withCircuit (some C)) none (some S)]⟩ := by
      simp [prepare, prepareAssert, mapSet_same]
    rw [e2]
    refine ⟨rfl, mapSet_same _ _ _, rfl, rfl, ?_, mapSet_same _ _ _⟩
    simp [completeAttach, hSf]
  · have e1 : prepare u p none (some S) =
        ⟨false, mapSet u p (some (.withStream (some S))), []⟩ := by
      simp [prepare, prepareAssert, hp, hSf]
    rw [e1]
    have e2 : prepare (mapSet u p (some (.withStream (some S)))) p (some C) none =
        ⟨false, mapSet (mapSet u p (some (.withStream (some S)))) p none,
         [completeAttach (.withStream (some S)) (some C) none]⟩ := by
      simp [prepare, prepareAssert, mapSet_same]
    rw [e2]
    refine ⟨rfl, mapSet_same _ _ _, rfl, rfl, ?_, mapSet_same _ _ _⟩
    simp [completeAttach, hCt]
  · intro q cid sid hq
    have hpq : p ≠ q := fun hh => hq hh.symm
    unfold prepare
    cases ha : prepareAssert cid sid
    · simp only [ha, Bool.false_eq_true, if_false]
    · simp only [ha, if_true]
      cases hu : u q with
      | some a =>
          simp only []
          exact mapSet_other _ _ _ _ hpq
      | none =>
          cases hc : pyTruthy cid <;> simp only [hc, Bool.false_eq_true, if_false, if_true] <;>
            exact mapSet_other _ _ _ _ hpq

theorem attacher_matched_pair_witness :
    ((fun _ : Nat => (none : Option PartialAttach)) 9050 = none ∧
     "77" ≠ "" ∧ "5" ≠ "") ∧
    (prepare (prepare (fun _ => none) 9050 (some "77") none).unattached 9050
      none (some "5")).attaches = [⟨some "5", some "77"⟩] :=
  ⟨⟨rfl, by decide, by decide⟩,
   (attacher_matched_pair (fun _ => none) 9050 "77" "5" rfl (by decide)
     (by decide)).1.2.2.2.2.1⟩

/-- C3 counterexample: with a single module whose exit selection yields zero
candidate exits, `run_module` raises `ExitSelectionError` and `main` logs the
user-facing error, but `main` returns exit code 0, not 1. -/
theorem empty_selection_exit_code_zero :
    (run_module 0 1).selection_error =
      some "Exit selection yielded 0 exits but need at least one." ∧
    (mainRun 1 [0]).1 =
      ["Failed to run because : Exit selection yielded 0 exits but need at least one."] ∧
    (mainRun 1 [0]).2 = 0 ∧ (mainRun 1 [0]).2 ≠ 1 := by
  refine ⟨by decide, by decide, rfl, by decide⟩

/-- C3 (amended): when exit selection yields zero candidates,
`ExitSelectionError` is raised, `main` logs the user-facing line
`Failed to run because : ...` for it, continues with the remaining modules,
and returns exit code 0. -/
theorem empty_selection_logged_and_zero (counts : List Nat) (redundancy : Nat)
    (h : 0 ∈ counts) :
    (run_module 0 redundancy).selection_error = some (exitSelectionMsg 0) ∧
    ("Failed to run because : " ++ exitSelectionMsg 0) ∈
      (mainRun redundancy counts).1 ∧
    (mainRun redundancy counts).2 = 0 := by
  refine ⟨rfl, ?_, rfl⟩
  exact List.mem_filterMap.mpr ⟨0, h, rfl⟩

theorem empty_selection_logged_and_zero_witness :
    (0 ∈ [2, 0, 3]) ∧
    ((run_module 0 1).selection_error = some (exitSelectionMsg 0) ∧
     ("Failed to run because : " ++ exitSelectionMsg 0) ∈ (mainRun 1 [2, 0, 3]).1 ∧
     (mainRun 1 [2, 0, 3]).2 = 0) :=
  ⟨by decide, empty_selection_logged_and_zero [2, 0, 3] 1 (by decide)⟩

/-- C4 counterexample: a `BUILT` event is terminal, yet its execution of
`update_circs` calls only `complete_circuit`; no `resolve_circuit` call
occurs in its registry trace. -/
theorem built_event_skips_resolve :
    (update_circs initStats ⟨"7", .BUILT, none⟩).2 = [RegCall.complete "7"] ∧
    RegCall.resolve "7" ∉ (update_circs initStats ⟨"7", .BUILT, none⟩).2 := by
  refine ⟨rfl, by decide⟩

/-- C4 (amended): a `FAILED` event calls `resolve_circuit(cid)` and then
`complete_circuit(cid)`; a `BUILT` event calls only `complete_circuit(cid)`;
after either terminal event the circuit id is absent from
`pending_circuits`; and over any operation history a circuit id is present
in the registry (necessarily as a single dict entry) exactly from its
registration until its terminal transition. -/
theorem registry_terminal_transitions :
    (∀ (st : StatsState) (cid : String) (r : Option String),
      (update_circs st ⟨cid, .FAILED, r⟩).2 = [.resolve cid, .complete cid]) ∧
    (∀ (st : StatsState) (cid : String) (r : Option String),
      (update_circs st ⟨cid, .BUILT, r⟩).2 = [.complete cid]) ∧
    (∀ (st : StatsState) (cid : String) (r : Option String),
      (update_circs st ⟨cid, .FAILED, r⟩).1.pending_circuits cid = none) ∧
    (∀ (st : StatsState) (cid : String) (r : Option String),
      (update_circs st ⟨cid, .BUILT, r⟩).1.pending_circuits cid = none) ∧
    (∀ (ops : List StatsOp) (cid : String),
      ((statsRun initStats ops).pending_circuits cid).isSome =
        activeFrom false cid ops) := by
  refine ⟨?_, ?_, ?_, ?_, ?_⟩
  · intro st cid r
    rfl
  · intro st cid r
    rfl
  · intro st cid r
    rw [update_circs_pending]
    rw [if_neg (by simp)]
    exact mapSet_same _ _ _
  · intro st cid r
    rw [update_circs_pending]
    rw [if_neg (by simp)]
    exact mapSet_same _ _ _
  · exact fun ops cid => statsRun_pending ops initStats cid false rfl

/-- C5: an attempt of `resolve_with_retry` whose SOCKS error parses to reply
code 4 (NXDOMAIN) returns immediately — exactly one attempt is executed, no
matter how many retries remain — with status `dns_fail` in wildcard mode
(truthy `expected_ip`) and status `success` with `resolved_ip = "NXDOMAIN"`
in NXDOMAIN mode. -/
theorem nxdomain_terminal (env : ProbeEnv) (oracle : Nat → AttemptOutcome)
    (retries attempt : Nat) (r : ProbeResult) (es : String) (lat : Nat)
    (hle : attempt ≤ retries) (hoc : oracle attempt = .socksErr es lat)
    (hcode : parse_socks_error_code es = some 4) :
    (resolveLoop env oracle retries attempt r).2 = 1 ∧
    (resolveLoop env oracle retries attempt r).1.status =
      (if pyTruthy env.expected_ip then "dns_fail" else "success") ∧
    (resolveLoop env oracle retries attempt r).1.resolved_ip =
      (if pyTruthy env.expected_ip then r.resolved_ip else some "NXDOMAIN") ∧
    (resolveLoop env oracle retries attempt r).1.error =
      (if pyTruthy env.expected_ip
       then some "SOCKS 4: Domain not found (NXDOMAIN)" else r.error) ∧
    (resolveLoop env oracle retries attempt r).1.latency_ms = some lat ∧
    (resolveLoop env oracle retries attempt r).1.attempt = attempt ∧
    (resolveLoop env oracle retries attempt r).1.mode = r.mode := by
  have hnl : ¬ retries < attempt := Nat.not_lt.mpr hle
  rw [resolveLoop, dif_neg hnl, hoc]
  cases hexp : pyTruthy env.expected_ip <;>
    simp [probeAttempt, hcode, hexp]

theorem nxdomain_terminal_witness :
    ((1 : Nat) ≤ 3 ∧ parse_socks_error_code "error 0x04" = some 4) ∧
    (resolveLoop ⟨some "64.65.4.1", none, "ABCD1234", 45⟩
      (fun _ => .socksErr "error 0x04" 120) 3 1
      (make_result "q.example" (some "64.65.4.1") "unknown" none none none 0 none)).2 =
      1 :=
  ⟨⟨by decide, by decide⟩,
   (nxdomain_terminal ⟨some "64.65.4.1", none, "ABCD1234", 45⟩
      (fun _ => .socksErr "error 0x04" 120) 3 1
      (make_result "q.example" (some "64.65.4.1") "unknown" none none none 0 none)
      "error 0x04" 120 (by decide) rfl (by decide)).1⟩

/-- C6: in wildcard mode, an attempt that obtains a resolved IP is terminal
(exactly one attempt is executed); the status is `success` iff the resolved
string equals the expected IP and otherwise `wrong_ip` with error
`Expected <expected_ip>, got <resolved_ip>`; the result records the resolved
IP, the measured latency and the attempt number. -/
theorem wildcard_ip_check (env : ProbeEnv) (oracle : Nat → AttemptOutcome)
    (retries attempt : Nat) (r : ProbeResult) (ip : String) (lat : Nat)
    (hle : attempt ≤ retries) (hoc : oracle attempt = .resolved ip lat)
    (hexp : pyTruthy env.expected_ip = true) :
    (resolveLoop env oracle retries attempt r).2 = 1 ∧
    (resolveLoop env oracle retries attempt r).1.status =
      (if ip == env.expected_ip.getD "" then "success" else "wrong_ip") ∧
    (resolveLoop env oracle retries attempt r).1.error =
      (if ip == env.expected_ip.getD "" then r.error
       else some ("Expected " ++ env.expected_ip.getD "" ++ ", got " ++ ip)) ∧
    (resolveLoop env oracle retries attempt r).1.resolved_ip = some ip ∧
    (resolveLoop env oracle retries attempt r).1.latency_ms = some lat ∧
    (resolveLoop env oracle retries attempt r).1.attempt = attempt := by
  have hnl : ¬ retries < attempt := Nat.not_lt.mpr hle
  rw [resolveLoop, dif_neg hnl, hoc]
  cases hip : ip == env.expected_ip.getD "" <;>
    simp [probeAttempt, hexp, hip]

theorem wildcard_ip_check_witness :
    ((1 : Nat) ≤ 3 ∧
     pyTruthy (some "64.65.4.1") = true) ∧
    (resolveLoop ⟨some "64.65.4.1", none, "ABCD1234", 45⟩
      (fun _ => .resolved "1.2.3.4" 50) 3 1
      (make_result "q.example" (some "64.65.4.1") "unknown" none none none 0 none)).1.status =
      (if ("1.2.3.4" == ((some "64.65.4.1" : Option String)).getD "")
       then "success" else "wrong_ip") :=
  ⟨⟨by decide, by decide⟩,
   (wildcard_ip_check ⟨some "64.65.4.1", none, "ABCD1234", 45⟩
      (fun _ => .resolved "1.2.3.4" 50) 3 1
      (make_result "q.example" (some "64.65.4.1") "unknown" none none none 0 none)
      "1.2.3.4" 50 (by decide) rfl (by decide)).2.1⟩

/-- C7: when the probe resolution is interrupted by the hard-timeout watchdog
(`HardTimeoutError`), `do_validation` records a result with status
`hard_timeout`, `latency_ms` equal to `HARD_TIMEOUT * 1000` and `attempt`
equal to `MAX_RETRIES`. -/
theorem hard_timeout_result (ht mr : Nat) (domain : String)
    (expected fh : Option String) :
    (do_validation ht mr domain expected fh .interrupted).status = "hard_timeout" ∧
    (do_validation ht mr domain expected fh .interrupted).latency_ms =
      some (ht * 1000) ∧
    (do_validation ht mr domain expected fh .interrupted).attempt = mr :=
  ⟨rfl, rfl, rfl⟩

/-- C8: a `FAILED` circuit event increments `failed_circuits` and records an
entry whose `reason_key` is the mapped token of the raw Tor reason — always
one of the sixteen listed tokens or the fallback `circuit_failed` — keyed by
the exit fingerprint resolved from the registry, or by `UNRESOLVED_<cid>`
when the circuit id is not in the registry (in particular whenever it was
never registered over the whole history). -/
theorem circ_failed_recording :
    (∀ (st : StatsState) (cid : String) (r : Option String),
      (update_circs st ⟨cid, .FAILED, r⟩).1.failed_circuits =
        st.failed_circuits + 1) ∧
    (∀ r : Option String,
      (get_circuit_failure_info r).1 ∈
        ["circuit_timeout", "relay_connect_failed", "circuit_no_path",
         "relay_resource_limit", "relay_hibernating", "circuit_destroyed",
         "circuit_finished", "relay_connection_closed", "channel_closed",
         "io_error", "tor_protocol_error", "tor_internal_error",
         "circuit_requested", "no_such_service", "measurement_expired",
         "guard_limit", "circuit_failed"]) ∧
    (∀ (st : StatsState) (cid : String) (r : Option String) (info : CircInfo),
      st.pending_circuits cid = some info → info.exit_relay ≠ "" →
      (update_circs st ⟨cid, .FAILED, r⟩).1.failed_circuit_relays info.exit_relay =
        some ⟨(get_circuit_failure_info r).1, (get_circuit_failure_info r).2,
              if pyTruthy r then r.getD "" else "UNKNOWN", some info.first_hop,
              false⟩) ∧
    (∀ (st : StatsState) (cid : String) (r : Option String),
      st.pending_circuits cid = none →
      (update_circs st ⟨cid, .FAILED, r⟩).1.failed_circuit_relays
          ("UNRESOLVED_" ++ cid) =
        some ⟨(get_circuit_failure_info r).1, (get_circuit_failure_info r).2,
              if pyTruthy r then r.getD "" else "UNKNOWN", none, true⟩) ∧
    ((get_circuit_failure_info none).1 = "circuit_failed" ∧
     (get_circuit_failure_info (some "")).1 = "circuit_failed") ∧
    (∀ (ops : List StatsOp) (cid : String) (r : Option String),
      registersCid cid ops = false →
      (update_circs (statsRun initStats ops) ⟨cid, .FAILED, r⟩).1.failed_circuit_relays
          ("UNRESOLVED_" ++ cid) =
        some ⟨(get_circuit_failure_info r).1, (get_circuit_failure_info r).2,
              if pyTruthy r then r.getD "" else "UNKNOWN", none, true⟩) := by
  refine ⟨?_, ?_, ?_, ?_, ⟨by decide, by decide⟩, ?_⟩
  · intro st cid r
    simp only [update_circs, complete_circuit]
    split <;> rfl
  · intro r
    exact failure_info_key_mem (if pyTruthy r then pyUpper (r.getD "") else "UNKNOWN")
  · exact update_circs_failed_resolved
  · exact update_circs_failed_unresolved
  · intro ops cid r h
    exact update_circs_failed_unresolved (statsRun initStats ops) cid r
      (statsRun_not_registered ops initStats cid h rfl)

/-- C9: every generated query has the shape
`<32 lowercase hex chars>.<8 lowercase hex chars>.<base_domain>` (for a
40-hex-character fingerprint), and two calls with distinct fresh UUID hex
strings always produce distinct queries, whatever the fingerprints and base
domains. -/
theorem generate_unique_query_spec :
    (∀ u fp b : String, u.length = 32 →
      (∀ c ∈ u.data, isLowerHexChar c = true) →
      fp.length = 40 → (∀ c ∈ fp.data, isHexDigitChar c = true) →
      ∃ mid : String,
        generate_unique_query u fp b = u ++ "." ++ mid ++ "." ++ b ∧
        mid.length = 8 ∧ (∀ c ∈ mid.data, isLowerHexChar c = true)) ∧
    (∀ u1 u2 fp1 fp2 b1 b2 : String, u1.length = 32 → u2.length = 32 →
      u1 ≠ u2 →
      generate_unique_query u1 fp1 b1 ≠ generate_unique_query u2 fp2 b2) := by
  constructor
  · intro u fp b hu huh hfp hfph
    refine ⟨pyLower (pyTake 8 fp), rfl, ?_, ?_⟩
    · show ((fp.data.take 8).map pyCharLower).length = 8
      rw [List.length_map, List.length_take]
      have : fp.data.length = 40 := hfp
      omega
    · intro c hc
      rcases List.mem_map.mp hc with ⟨c0, hc0, rfl⟩
      exact hex_pyCharLower (hfph c0 (List.take_subset 8 fp.data hc0))
  · intro u1 u2 fp1 fp2 b1 b2 h1 h2 hne heq
    apply hne
    have hd : (generate_unique_query u1 fp1 b1).data =
        (generate_unique_query u2 fp2 b2).data := congrArg String.data heq
    have hs : u1.data ++ ("." ++ pyLower (pyTake 8 fp1) ++ "." ++ b1).data =
        u2.data ++ ("." ++ pyLower (pyTake 8 fp2) ++ "." ++ b2).data := by
      simpa [generate_unique_query, String.data_append, List.append_assoc] using hd
    have hlen : u1.data.length = u2.data.length := by
      have e1 : u1.data.length = 32 := h1
      have e2 : u2.data.length = 32 := h2
      omega
    exact string_eq_of_data_eq (List.append_inj hs hlen).1

/-- C10 (implicit): `Attacher.prepare` raises `AssertionError` exactly when
not exactly one of `circuit_id` / `stream_id` is supplied; the assert sits
before the lock is taken, so a raising call leaves the `unattached` table
unchanged and performs no attach, while a call with exactly one id never
raises. -/
theorem prepare_assert_exactly_one (u : Nat → Option PartialAttach) (port : Nat)
    (circuit_id stream_id : Option String) :
    (prepare u port circuit_id stream_id).raised =
      !(prepareAssert circuit_id stream_id) ∧
    (prepareAssert circuit_id stream_id = false →
      prepare u port circuit_id stream_id = ⟨true, u, []⟩) := by
  cases ha : prepareAssert circuit_id stream_id
  · exact ⟨by simp [prepare, ha], fun _ => by simp [prepare, ha]⟩
  · constructor
    · cases hu : u port with
      | some a => simp [prepare, ha, hu]
      | none => cases hc : pyTruthy circuit_id <;> simp [prepare, ha, hu, hc]
    · intro h
      exact Bool.noConfusion h

end Exitmap
